import Mathlib

/-!
Shallow embedding of the CSS-AMU front-end form logic:
the two zod form schemas of the student portfolio form (the looser
variant and the stricter variant), the login page schema and submit
handler, and the `useFieldArray` sub-list managers.

Strings are modelled by Lean `String` (a list of characters); the JS
`String.prototype.toUpperCase` is modelled on ASCII by `jsToUpperChar`.
The anchored regexes of the schemas are modelled as executable character
class sequence matchers (`charsMatch`) or, for the finite-language
semester regex, by the exact finite set of strings the regex accepts.
-/

namespace CssFrontend

/-! ## Character and string model -/

/-- ASCII lowercase letter test, `[a-z]`. -/
def isLowerCh (c : Char) : Bool := 'a' ≤ c && c ≤ 'z'

/-- ASCII uppercase letter test, `[A-Z]`. -/
def isUpperCh (c : Char) : Bool := 'A' ≤ c && c ≤ 'Z'

/-- ASCII digit test, `[0-9]`. -/
def isDigitCh (c : Char) : Bool := '0' ≤ c && c ≤ '9'

/-- ASCII letter test, `[A-Za-z]`. -/
def isAlphaCh (c : Char) : Bool := isLowerCh c || isUpperCh c

/-- ASCII alphanumeric test, `[A-Za-z0-9]`. -/
def isAlnumCh (c : Char) : Bool := isAlphaCh c || isDigitCh c

/-- Model of `String.prototype.toUpperCase` on one ASCII character:
lowercase letters are shifted down by 32, everything else is unchanged. -/
def jsToUpperChar (c : Char) : Char :=
  if 'a' ≤ c && c ≤ 'z' then Char.ofNat (c.toNat - 32) else c

/-- Model of `val.toUpperCase()` on an ASCII string. -/
def jsToUpper (s : String) : String := ⟨s.data.map jsToUpperChar⟩

/-- Model of the zod `nonempty` check, `val.length >= 1`. -/
def strNonempty (s : String) : Bool := decide (1 ≤ s.data.length)

/-- Model of the zod `min n` length check. -/
def strMinLen (n : Nat) (s : String) : Bool := decide (n ≤ s.data.length)

/-- Model of the zod `max n` length check. -/
def strMaxLen (n : Nat) (s : String) : Bool := decide (s.data.length ≤ n)

/-- Matches a list of characters against a sequence of character
classes: the string matches exactly when it has the same length as the
class list and each character is in its class.  This is the semantics
of an anchored regex made of single character classes. -/
def charsMatch : List (Char → Bool) → List Char → Bool
  | [], [] => true
  | p :: ps, c :: cs => p c && charsMatch ps cs
  | _, _ => false

/-- The enrollment number regex `^[A-Z]{2}[0-9]{4}$`. -/
def enrollPattern (l : List Char) : Bool :=
  charsMatch (List.replicate 2 isUpperCh ++ List.replicate 4 isDigitCh) l

/-- The faculty number regex `^[0-9]{2}[A-Z]{5}[0-9]{3}$`. -/
def facultyPattern (l : List Char) : Bool :=
  charsMatch (List.replicate 2 isDigitCh ++ List.replicate 5 isUpperCh
    ++ List.replicate 3 isDigitCh) l

/-- The stricter variant phone regex `^\d{10}$`. -/
def phonePatternV2 (l : List Char) : Bool :=
  charsMatch (List.replicate 10 isDigitCh) l

/-- Country code part of the looser variant phone regex,
`\+?\d{1,3}[- ]?`: an optional plus sign, one to three digits, an
optional dash or space. -/
def phoneCcPart (l : List Char) : Bool :=
  let l1 := match l with
    | '+' :: rest => rest
    | other => other
  let l2 := match l1.getLast? with
    | some '-' => l1.dropLast
    | some ' ' => l1.dropLast
    | _ => l1
  decide (1 ≤ l2.length) && decide (l2.length ≤ 3) && l2.all isDigitCh

/-- The looser variant phone regex `^(\+?\d{1,3}[- ]?)?\d{10}$`: ten
digits, optionally preceded by a country code part.  Because the tail
`\d{10}` has fixed length, a string matches exactly when its last ten
characters are digits and the rest (when nonempty) matches the country
code part. -/
def phonePatternV1 (l : List Char) : Bool :=
  if l.length < 10 then false
  else
    let cc := l.take (l.length - 10)
    let tail10 := l.drop (l.length - 10)
    tail10.all isDigitCh && (cc.isEmpty || phoneCcPart cc)

/-- Splits a character list on a separator character; the separators
are dropped and the (possibly empty) chunks between them returned. -/
def splitOnCh (sep : Char) : List Char → List (List Char)
  | [] => [[]]
  | c :: cs =>
    let rest := splitOnCh sep cs
    if c == sep then [] :: rest
    else match rest with
      | [] => [[c]]
      | r :: rs => (c :: r) :: rs

/-- No two consecutive dots occur in the list. -/
def noDoubleDot : List Char → Bool
  | '.' :: '.' :: _ => false
  | _ :: rest => noDoubleDot rest
  | [] => true

/-- One character of the local part class of the zod v3 email regex,
case insensitive: `[A-Z0-9_'+\-.]`. -/
def emailLocalCh (c : Char) : Bool :=
  isAlnumCh c || c == '_' || c == Char.ofNat 39 || c == '+' || c == '-' || c == '.'

/-- A character allowed as the last character of the local part,
`[A-Z0-9_+\-]`. -/
def emailLocalEndCh (c : Char) : Bool :=
  isAlnumCh c || c == '_' || c == '+' || c == '-'

/-- One domain label of the email regex, `[A-Z0-9][A-Z0-9\-]*`
(case insensitive). -/
def emailLabelOK (l : List Char) : Bool :=
  match l with
  | [] => false
  | c :: cs => isAlnumCh c && cs.all (fun d => isAlnumCh d || d == '-')

/-- The trailing top level domain of the email regex, `[A-Z]{2,}`. -/
def emailTldOK (l : List Char) : Bool :=
  decide (2 ≤ l.length) && l.all isAlphaCh

/-- Model of the zod v3 `z.string().email()` check (the library regex
`^(?!\.)(?!.*\.\.)([A-Z0-9_'+\-\.]*)[A-Z0-9_+\-]@([A-Z0-9][A-Z0-9\-]*\.)+[A-Z]{2,}$`
with the case-insensitive flag): a nonempty local part over the local
class, not starting with a dot, without a double dot, ending in a
restricted character, then `@`, then one or more labels and an
alphabetic top level domain separated by dots. -/
def isEmail (s : String) : Bool :=
  match splitOnCh '@' s.data with
  | [locPart, domPart] =>
    (match locPart with
     | [] => false
     | c :: _ =>
       !(c == '.') && locPart.all emailLocalCh && noDoubleDot locPart
       && (match locPart.getLast? with
           | some lastc => emailLocalEndCh lastc
           | none => false))
    && (match splitOnCh '.' domPart with
        | [] => false
        | [_] => false
        | parts =>
          (match parts.getLast? with
           | some tld => emailTldOK tld
           | none => false)
          && parts.dropLast.all emailLabelOK)
  | _ => false

/-- Model of the zod `z.string().url()` check (the library feeds the
string to the WHATWG URL constructor): an alphabetic scheme followed by
`://` and a nonempty remainder.  The concrete URLs appearing in this
development are ordinary absolute http or https URLs, on which this
model agrees with the URL constructor. -/
def isURL (s : String) : Bool :=
  match splitOnCh ':' s.data with
  | scheme :: rest1 :: rest =>
    !scheme.isEmpty && scheme.all isAlphaCh
    && (match rest1 with
        | '/' :: '/' :: host => !host.isEmpty || !rest.isEmpty
        | _ => false)
  | _ => false

/-- Number of days of a month in a given year, Gregorian rules. -/
def daysInMonth (year month : Nat) : Nat :=
  if month == 2 then
    if year % 4 == 0 && (year % 100 != 0 || year % 400 == 0) then 29 else 28
  else if month == 4 || month == 6 || month == 9 || month == 11 then 30
  else 31

/-- Digit value of an ASCII digit character. -/
def digitVal (c : Char) : Nat := c.toNat - 48

/-- Model of the zod `z.string().date()` check: exactly `YYYY-MM-DD`
with a valid month and a day valid for that month and year. -/
def isDateStr (s : String) : Bool :=
  match s.data with
  | [y1, y2, y3, y4, '-', m1, m2, '-', d1, d2] =>
    [y1, y2, y3, y4, m1, m2, d1, d2].all isDigitCh
    && (let y := ((digitVal y1 * 10 + digitVal y2) * 10 + digitVal y3) * 10 + digitVal y4
        let m := digitVal m1 * 10 + digitVal m2
        let d := digitVal d1 * 10 + digitVal d2
        decide (1 ≤ m) && decide (m ≤ 12) && decide (1 ≤ d)
        && decide (d ≤ daysInMonth y m))
  | _ => false

/-! ## The stricter variant semester regex

The stricter schema variant validates `semester` with the regex

`^(?:(B\.Sc\.\(Hons\.\) Comp\. Appls\.: (I|II|III|IV|V|VI|VII|VIII))|(MCA|M\.Sc\. Cyber Security: (I|II|III|IV)))$`.

This regex is anchored and every alternative is a fixed literal string,
so its language is a finite set of strings, listed below.  Note the
second top level alternative `(MCA|M\.Sc\. Cyber Security: (I|II|III|IV))`:
by alternation precedence it matches either the literal string `MCA`
alone or `M.Sc. Cyber Security: ` followed by one of I to IV; the
suffix `: (I|II|III|IV)` binds only to the `M.Sc. Cyber Security`
branch, so no string starting with `MCA: ` is in the language. -/

/-- Roman numerals of the B.Sc. branch of the semester regex. -/
def bscSemRomans : List String := ["I", "II", "III", "IV", "V", "VI", "VII", "VIII"]

/-- Roman numerals of the M.Sc. Cyber Security branch of the semester regex. -/
def mscSemRomans : List String := ["I", "II", "III", "IV"]

/-- The exact (finite) language of the stricter variant semester regex. -/
def semesterRegexStrings : List String :=
  bscSemRomans.map (fun r => "B.Sc.(Hons.) Comp. Appls.: " ++ r)
  ++ ["MCA"]
  ++ mscSemRomans.map (fun r => "M.Sc. Cyber Security: " ++ r)

/-- The stricter variant semester check: membership in the regex language. -/
def semesterCheckV2 (s : String) : Bool := semesterRegexStrings.contains s

/-! ## Data model -/

/-- Fluency rating enum, `z.enum(['Beginner', 'Intermediate', 'Advanced', 'Expert'])`. -/
inductive Fluency where
  | Beginner | Intermediate | Advanced | Expert
deriving DecidableEq

/-- Course enum of the looser variant,
`z.enum(['B.Sc.(Hons.) Comp. Appls.', 'MCA', 'M.Sc. Cyber Security'])`. -/
inductive CourseV1 where
  | bscHons | mca | mscCyber
deriving DecidableEq

/-- Course enum of the stricter variant, which additionally contains
the placeholder sentinel `SELECT` rejected by a refinement. -/
inductive CourseV2 where
  | select | bscHons | mca | mscCyber
deriving DecidableEq

/-- A programming language row, `progLangSchema`. -/
structure ProgLangRow where
  name : String
  fluency : Fluency
deriving DecidableEq

/-- A skills row, `skillsSchema`. -/
structure SkillRow where
  name : String
  fluency : Fluency
deriving DecidableEq

/-- A project row of the looser variant, `projectSchema` with
`technologiesUsed` a free string.  `projectLink` is optional; the
value `none` models an absent (undefined) field. -/
structure ProjectRowV1 where
  projectName : String
  projectDescription : String
  technologiesUsed : String
  projectLink : Option String
  projectDuration : String
deriving DecidableEq

/-- A project row of the stricter variant, `projectSchema` with
`technologiesUsed` an array of strings. -/
structure ProjectRowV2 where
  projectName : String
  projectDescription : String
  technologiesUsed : List String
  projectLink : Option String
  projectDuration : String
deriving DecidableEq

/-- An achievement row of the looser variant, `achievementSchema`. -/
structure AchievementRow where
  name : String
deriving DecidableEq

/-- A browser `File`: the two attributes the profile picture schema
reads, byte size and MIME type. -/
structure FileV where
  size : Nat
  type : String
deriving DecidableEq

/-! ## Error reporting -/

/-- A field path, as react-hook-form addresses errors: a list of path
segments, e.g. `["progLangs", "0", "name"]` for `progLangs.0.name`. -/
abbrev FieldPath := List String

/-- One reported validation failure: field path and message. -/
abbrev Issue := FieldPath × String

/-- Runs an ordered list of checks of one field, in zod style: each
check is a boolean outcome paired with its message, and every failed
check contributes an issue at the field path. -/
def checkErrors (path : FieldPath) (checks : List (Bool × String)) : List Issue :=
  checks.flatMap (fun chk => if chk.1 then [] else [(path, chk.2)])

/-! ## Looser variant (`src/unnamed/part_000`): `FormSchema` -/

/-- Parse step of the looser variant `enrollNo` field:
`z.string().transform(val => val.toUpperCase()).refine(val => /^[A-Z]{2}[0-9]{4}$/.test(val), 'Invalid Enrollment number')`.
The transformed (uppercased) value is the parse output. -/
def parseEnrollV1 (s : String) : Except String String :=
  let u := jsToUpper s
  if enrollPattern u.data then .ok u else .error "Invalid Enrollment number"

/-- Parse step of the looser variant `facultyNo` field: uppercase
transform, then `/^[0-9]{2}[A-Z]{5}[0-9]{3}$/` refinement. -/
def parseFacultyV1 (s : String) : Except String String :=
  let u := jsToUpper s
  if facultyPattern u.data then .ok u else .error "Invalid Faculty number"

/-- Per-row issues of a `progLangSchema` row at index `i`: `name` must
be nonempty (zod default minimum-length message); `fluency` is already
a member of the enum in the typed model. -/
def progLangRowErrors (i : Nat) (r : ProgLangRow) : List Issue :=
  checkErrors ["progLangs", toString i, "name"]
    [(strNonempty r.name, "String must contain at least 1 character(s)")]

/-- Per-row issues of a looser variant `projectSchema` row at index `i`. -/
def projectRowErrorsV1 (i : Nat) (r : ProjectRowV1) : List Issue :=
  checkErrors ["projects", toString i, "projectName"]
    [(strMinLen 2 r.projectName, "Project name must be at least 2 characters.")]
  ++ checkErrors ["projects", toString i, "projectDescription"]
    [(strMinLen 10 r.projectDescription, "Project description must be at least 10 characters.")]
  ++ (match r.projectLink with
      | none => []
      | some u => checkErrors ["projects", toString i, "projectLink"] [(isURL u, "Invalid url")])
  ++ checkErrors ["projects", toString i, "projectDuration"]
    [(strMinLen 2 r.projectDuration, "Project duration must be at least 2 characters.")]

/-- Per-row issues of an `achievementSchema` row at index `i`. -/
def achievementRowErrorsV1 (i : Nat) (r : AchievementRow) : List Issue :=
  checkErrors ["achievements", toString i, "name"]
    [(strNonempty r.name, "This field is required")]

/-- Issues of the looser variant `course` field: the raw select value
may still be unset (`undefined`), which the enum rejects with the zod
default required message. -/
def courseErrorsV1 : Option CourseV1 → List Issue
  | none => [(["course"], "Required")]
  | some _ => []

/-- The raw form document of the looser variant, as held by
react-hook-form before submit validation.  Text inputs hold strings;
the course select may be unset; the profile picture may be absent. -/
structure DocV1 where
  profilePicture : Option FileV
  name : String
  title : String
  about : String
  dob : String
  address : String
  enrollNo : String
  facultyNo : String
  course : Option CourseV1
  semester : String
  progLangs : List ProgLangRow
  skills : List SkillRow
  projects : List ProjectRowV1
  achievements : List AchievementRow
  email : String
  phone : String
  github : String
  linkedin : String
deriving DecidableEq

/-- The parsed output document of the looser variant (`z.infer` of the
schema): as the raw document, but the enrollment and faculty numbers
are uppercased by their transforms and the course is resolved. -/
structure OutV1 where
  profilePicture : Option FileV
  name : String
  title : String
  about : String
  dob : String
  address : String
  enrollNo : String
  facultyNo : String
  course : CourseV1
  semester : String
  progLangs : List ProgLangRow
  skills : List SkillRow
  projects : List ProjectRowV1
  achievements : List AchievementRow
  email : String
  phone : String
  github : String
  linkedin : String
deriving DecidableEq

/-- All issues collected by full-document validation of the looser
variant `FormSchema`, in schema field order.  `profilePicture` is
`z.instanceof(File).optional()` and never fails in the typed model;
`skillsSchema` rows have no failing check. -/
def validateV1Errors (d : DocV1) : List Issue :=
  checkErrors ["name"] [(strNonempty d.name, "This field is required")]
  ++ checkErrors ["title"] [(strNonempty d.title, "This field is required")]
  ++ checkErrors ["about"]
    [(strMaxLen 200 d.about, "Not more than 200 characters"),
     (strNonempty d.about, "This field is required")]
  ++ checkErrors ["dob"]
    [(isDateStr d.dob, "Invalid date"), (strMinLen 1 d.dob, "This field is required")]
  ++ checkErrors ["address"] [(strNonempty d.address, "This field is required")]
  ++ (match parseEnrollV1 d.enrollNo with
      | .ok _ => []
      | .error m => [(["enrollNo"], m)])
  ++ (match parseFacultyV1 d.facultyNo with
      | .ok _ => []
      | .error m => [(["facultyNo"], m)])
  ++ courseErrorsV1 d.course
  ++ checkErrors ["semester"] [(strNonempty d.semester, "Semester is Required")]
  ++ d.progLangs.enum.flatMap (fun p => progLangRowErrors p.1 p.2)
  ++ d.skills.flatMap (fun _ => ([] : List Issue))
  ++ d.projects.enum.flatMap (fun p => projectRowErrorsV1 p.1 p.2)
  ++ d.achievements.enum.flatMap (fun p => achievementRowErrorsV1 p.1 p.2)
  ++ checkErrors ["email"]
    [(isEmail d.email, "Invalid email"), (strNonempty d.email, "This field is required")]
  ++ checkErrors ["phone"] [(phonePatternV1 d.phone.data, "Invalid phone number")]
  ++ checkErrors ["github"] [(isURL d.github, "Invalid url")]
  ++ checkErrors ["linkedin"] [(isURL d.linkedin, "Invalid url")]

/-- Full-document validation of the looser variant: either the list of
all collected issues, or the parsed document with the enrollment and
faculty numbers normalized to uppercase. -/
def validateV1 (d : DocV1) : Except (List Issue) OutV1 :=
  let errs := validateV1Errors d
  match d.course with
  | some c =>
    if errs.isEmpty then
      .ok { profilePicture := d.profilePicture, name := d.name, title := d.title,
            about := d.about, dob := d.dob, address := d.address,
            enrollNo := jsToUpper d.enrollNo, facultyNo := jsToUpper d.facultyNo,
            course := c, semester := d.semester, progLangs := d.progLangs,
            skills := d.skills, projects := d.projects, achievements := d.achievements,
            email := d.email, phone := d.phone, github := d.github, linkedin := d.linkedin }
    else .error errs
  | none => .error errs

/-- Model of `form.handleSubmit(onSubmit)` for the looser variant: the
parsed document is handed to `onSubmit` only when validation passes;
otherwise nothing is handed over and the issues are reported. -/
def handleSubmitV1 (d : DocV1) : Option OutV1 :=
  match validateV1 d with
  | .ok v => some v
  | .error _ => none

/-! ## Stricter variant (`src/src/components/StudentPortfolioForm.tsx`): `FormSchema` -/

/-- Maximum profile picture size, `2 * 1024 * 1024` bytes. -/
def maxSize : Nat := 2 * 1024 * 1024

/-- Allowed profile picture MIME types; only JPEG and PNG are allowed. -/
def fileFormat : List String := ["image/jpeg", "image/png"]

/-- Messages produced by `profilePictureSchema` on a `FileList`: the
list must be nonempty, `files[0]` must be at most `maxSize` bytes and
of an allowed MIME type.  On an empty list the JS size and type reads
see `undefined`, so both comparisons fail. -/
def checkProfilePicture (files : List FileV) : List String :=
  (if decide (0 < files.length) then [] else ["Profile picture is required."])
  ++ (match files.head? with
      | some f => if decide (f.size ≤ maxSize) then [] else ["File size must be less than 2MB."]
      | none => ["File size must be less than 2MB."])
  ++ (match files.head? with
      | some f => if fileFormat.contains f.type then [] else
          ["Invalid file type. Only JPEG and PNG are allowed."]
      | none => ["Invalid file type. Only JPEG and PNG are allowed."])

/-- Per-row issues of a stricter variant `projectSchema` row at index
`i`; `technologiesUsed` is an array of strings with no element check. -/
def projectRowErrorsV2 (i : Nat) (r : ProjectRowV2) : List Issue :=
  checkErrors ["projects", toString i, "projectName"]
    [(strMinLen 2 r.projectName, "Project name must be at least 2 characters.")]
  ++ checkErrors ["projects", toString i, "projectDescription"]
    [(strMinLen 10 r.projectDescription, "Project description must be at least 10 characters.")]
  ++ (match r.projectLink with
      | none => []
      | some u => checkErrors ["projects", toString i, "projectLink"] [(isURL u, "Invalid url")])
  ++ checkErrors ["projects", toString i, "projectDuration"]
    [(strMinLen 2 r.projectDuration, "Project duration must be at least 2 characters.")]

/-- Per-element issues of the stricter variant `achievements` array of
strings at index `i`. -/
def achievementErrorsV2 (i : Nat) (a : String) : List Issue :=
  checkErrors ["achievements", toString i]
    [(strMaxLen 50 a, "Not more than 50 characters"),
     (strNonempty a, "This field is required")]

/-- Issues of the stricter variant `course` field: the enum contains
the sentinel `SELECT`, rejected by a refinement. -/
def courseErrorsV2 (c : CourseV2) : List Issue :=
  if c == .select then [(["course"], "You must select a valid course")] else []

/-- Issues of the stricter variant `semester` field: the semester
string must be in the semester regex language and nonempty.  The rule
reads no other field of the document. -/
def semesterErrorsV2 (s : String) : List Issue :=
  checkErrors ["semester"]
    [(semesterCheckV2 s, "Invalid semester for the selected course"),
     (strNonempty s, "Semester is Required")]

/-- The raw form document of the stricter variant.  `profilePicture`
holds the `FileList` checked by the nested `profilePictureSchema`
object; `achievements` is an array of strings. -/
structure DocV2 where
  profilePicture : List FileV
  name : String
  title : String
  about : String
  dob : String
  address : String
  enrollNo : String
  facultyNo : String
  course : CourseV2
  semester : String
  progLangs : List ProgLangRow
  skills : List SkillRow
  projects : List ProjectRowV2
  achievements : List String
  email : String
  phone : String
  github : String
  linkedin : String
deriving DecidableEq

/-- All issues collected by full-document validation of the stricter
variant `FormSchema`, in schema field order.  The `profilePicture`
issues are reported under the nested path
`profilePicture.profilePicture` of the wrapping object schema;
`skillsSchema` rows have no failing check. -/
def validateV2Errors (d : DocV2) : List Issue :=
  (checkProfilePicture d.profilePicture).map
    (fun m => ((["profilePicture", "profilePicture"] : FieldPath), m))
  ++ checkErrors ["name"] [(strNonempty d.name, "This field is required")]
  ++ checkErrors ["title"] [(strNonempty d.title, "This field is required")]
  ++ checkErrors ["about"]
    [(strMaxLen 200 d.about, "Not more than 200 characters"),
     (strNonempty d.about, "This field is required")]
  ++ checkErrors ["dob"]
    [(isDateStr d.dob, "Invalid date"), (strNonempty d.dob, "This field is required")]
  ++ checkErrors ["address"] [(strNonempty d.address, "This field is required")]
  ++ checkErrors ["enrollNo"]
    [(enrollPattern d.enrollNo.data, "Invalid Enrollment number"),
     (strNonempty d.enrollNo, "This field is required")]
  ++ checkErrors ["facultyNo"]
    [(facultyPattern d.facultyNo.data, "Invalid Faculty number"),
     (strNonempty d.facultyNo, "This field is required")]
  ++ courseErrorsV2 d.course
  ++ semesterErrorsV2 d.semester
  ++ d.progLangs.enum.flatMap (fun p => progLangRowErrors p.1 p.2)
  ++ d.skills.flatMap (fun _ => ([] : List Issue))
  ++ d.projects.enum.flatMap (fun p => projectRowErrorsV2 p.1 p.2)
  ++ d.achievements.enum.flatMap (fun p => achievementErrorsV2 p.1 p.2)
  ++ checkErrors ["email"]
    [(isEmail d.email, "Invalid email"), (strNonempty d.email, "This field is required")]
  ++ checkErrors ["phone"]
    [(phonePatternV2 d.phone.data, "Invalid"),
     (strNonempty d.phone, "This field is required")]
  ++ checkErrors ["github"] [(isURL d.github, "Invalid url")]
  ++ checkErrors ["linkedin"] [(isURL d.linkedin, "Invalid url")]

/-- Tests whether an issue is addressed to the `semester` field. -/
def isSemesterPath (e : Issue) : Bool := e.1 == ["semester"]

/-- The issues of stricter variant full-document validation addressed
to the `semester` field. -/
def semesterFieldErrorsV2 (d : DocV2) : List Issue :=
  (validateV2Errors d).filter isSemesterPath

/-- The `semester` field passes stricter variant full-document
validation: no issue is reported at its path. -/
def semPassV2 (d : DocV2) : Bool := (semesterFieldErrorsV2 d).isEmpty

/-! ## `useFieldArray` sub-list managers -/

/-- State of one `useFieldArray` manager: the ordered entries, each
carrying the identity-stable key react-hook-form generates for it, and
the next fresh key. -/
structure FieldArrayState (α : Type) where
  entries : List (Nat × α)
  nextId : Nat
deriving DecidableEq

/-- `append(entry)`: inserts at the end with a fresh identity-stable key. -/
def faAppend {α : Type} (s : FieldArrayState α) (x : α) : FieldArrayState α :=
  { entries := s.entries ++ [(s.nextId, x)], nextId := s.nextId + 1 }

/-- `remove(index)`: deletes the entry at the index; the remaining
entries keep their keys and relative order and are re-indexed. -/
def faRemove {α : Type} (s : FieldArrayState α) (i : Nat) : FieldArrayState α :=
  { entries := s.entries.eraseIdx i, nextId := s.nextId }

/-- The four repeatable sub-lists of the looser variant form state,
plus the course of the field-array wiring of the stricter variant: its
five managers are bound to the names `progLangs`, `project` (sic, a
name that is not a schema field, materialized on demand), `progLangs`,
`progLangs` and `progLangs` — so this state also carries the phantom
`project` list those bindings reach. -/
structure PortfolioLists where
  progLangs : FieldArrayState ProgLangRow
  skills : FieldArrayState SkillRow
  projects : FieldArrayState ProjectRowV2
  achievements : FieldArrayState String
  project : FieldArrayState ProjectRowV2
deriving DecidableEq

/-- Stricter variant `appendLanguage`: manager bound to `progLangs`. -/
def appendLanguageV2 (s : PortfolioLists) (r : ProgLangRow) : PortfolioLists :=
  { s with progLangs := faAppend s.progLangs r }

/-- Stricter variant `appendProject`: manager bound to the name
`project`, which is not a field of the schema, so the `projects`
sub-list is never touched by it. -/
def appendProjectV2 (s : PortfolioLists) (r : ProjectRowV2) : PortfolioLists :=
  { s with project := faAppend s.project r }

/-- Stricter variant `appendsSkill`: its manager is bound to the name
`progLangs`, not `skills`, so the appended `{ name: '', fluency: 'Beginner' }`
row lands in the `progLangs` sub-list. -/
def appendsSkillV2 (s : PortfolioLists) (r : ProgLangRow) : PortfolioLists :=
  { s with progLangs := faAppend s.progLangs r }

/-- Stricter variant `removeSkill`: same manager, also bound to
`progLangs`. -/
def removeSkillV2 (s : PortfolioLists) (i : Nat) : PortfolioLists :=
  { s with progLangs := faRemove s.progLangs i }

/-- Stricter variant `appendAchievement`: also bound to `progLangs`. -/
def appendAchievementV2 (s : PortfolioLists) (r : ProgLangRow) : PortfolioLists :=
  { s with progLangs := faAppend s.progLangs r }

/-! ## Login page (`src/unnamed/part_001`) -/

/-- Parse step of the login `email` field, which reuses the enrollment
number chain: uppercase transform, then the `/^[A-Z]{2}[0-9]{4}$/`
refinement with message `Invalid Enrollment number`. -/
def parseLoginEmail (s : String) : Except String String :=
  let u := jsToUpper s
  if enrollPattern u.data then .ok u else .error "Invalid Enrollment number"

/-- The raw login form values. -/
structure LoginInput where
  email : String
  password : String
deriving DecidableEq

/-- The parsed login form values: the email is the uppercased value
produced by the transform. -/
structure LoginOut where
  email : String
  password : String
deriving DecidableEq

/-- Issues collected by login form validation: the email chain and the
six character password minimum. -/
def validateLoginErrors (d : LoginInput) : List Issue :=
  (match parseLoginEmail d.email with
   | .ok _ => []
   | .error m => [(["email"], m)])
  ++ checkErrors ["password"]
    [(strMinLen 6 d.password, "Password must be atleast of 6 characters")]

/-- Login form validation: all issues, or the parsed values. -/
def validateLogin (d : LoginInput) : Except (List Issue) LoginOut :=
  let errs := validateLoginErrors d
  if errs.isEmpty then .ok { email := jsToUpper d.email, password := d.password }
  else .error errs

/-- Outcome of the login network call: the promise resolves (a 2xx
response) or rejects (a network error or a non-2xx status, on which
axios throws). -/
inductive NetOutcome where
  | success | failure
deriving DecidableEq

/-- An observable browser effect of the login submit handler. -/
inductive BrowserAction where
  | post (url : String) (email password : String) (withCredentials : Bool)
  | navigate (path : String)
  | alert (msg : String)
  | logData
  | logError
deriving DecidableEq

/-- Tests for the network request action. -/
def isPostAction : BrowserAction → Bool
  | .post _ _ _ _ => true
  | _ => false

/-- Tests for a navigation action. -/
def isNavigateAction : BrowserAction → Bool
  | .navigate _ => true
  | _ => false

/-- The login `onSubmit` handler as its trace of browser effects: one
`axios.post` to the fixed local endpoint with the values as JSON body
and `withCredentials: true`; on resolution, log the response, navigate
to the application root and alert success; on rejection, alert the
generic message and log the error; in both cases the data is logged at
the end. -/
def loginOnSubmit (d : LoginOut) (o : NetOutcome) : List BrowserAction :=
  .post "http://localhost:3000/api/v1/users/login" d.email d.password true ::
  ((match o with
    | .success => [.logData, .navigate "/", .alert "Login successful"]
    | .failure => [.alert "Invalid credentials or something went wrong", .logError])
   ++ [.logData])

/-- Model of `form.handleSubmit(onSubmit)` on the login page: when
client-side validation fails, `onSubmit` is never invoked, so no
browser effect (in particular no network request) is produced. -/
def loginHandleSubmit (raw : LoginInput) (o : NetOutcome) : List BrowserAction :=
  match validateLogin raw with
  | .ok d => loginOnSubmit d o
  | .error _ => []

/-! ## Concrete documents used by the claim theorems -/

/-- A looser variant raw document on which every field rule passes. -/
def baseV1 : DocV1 :=
  { profilePicture := none
    name := "Alice Khan"
    title := "Student"
    about := "I build web apps."
    dob := "2000-01-15"
    address := "Aligarh"
    enrollNo := "gk1234"
    facultyNo := "21cosbb123"
    course := some .mca
    semester := "II"
    progLangs := [{ name := "C", fluency := .Advanced }]
    skills := [{ name := "Git", fluency := .Beginner }]
    projects := [{ projectName := "Portfolio"
                   projectDescription := "A personal portfolio site."
                   technologiesUsed := "React"
                   projectLink := some "https://github.com/alice/portfolio"
                   projectDuration := "3 months" }]
    achievements := [{ name := "Won hackathon" }]
    email := "user@example.com"
    phone := "9876543210"
    github := "https://github.com/alice"
    linkedin := "https://linkedin.com/in/alice" }

/-- The parsed output of `baseV1`: the enrollment and faculty numbers
are normalized to uppercase, everything else is carried over. -/
def baseV1Out : OutV1 :=
  { profilePicture := none
    name := "Alice Khan"
    title := "Student"
    about := "I build web apps."
    dob := "2000-01-15"
    address := "Aligarh"
    enrollNo := "GK1234"
    facultyNo := "21COSBB123"
    course := .mca
    semester := "II"
    progLangs := [{ name := "C", fluency := .Advanced }]
    skills := [{ name := "Git", fluency := .Beginner }]
    projects := [{ projectName := "Portfolio"
                   projectDescription := "A personal portfolio site."
                   technologiesUsed := "React"
                   projectLink := some "https://github.com/alice/portfolio"
                   projectDuration := "3 months" }]
    achievements := [{ name := "Won hackathon" }]
    email := "user@example.com"
    phone := "9876543210"
    github := "https://github.com/alice"
    linkedin := "https://linkedin.com/in/alice" }

/-- A stricter variant raw document with course `MCA` whose other
fields pass their rules; only the `semester` value is varied in the
theorems below. -/
def mcaDocV2 : DocV2 :=
  { profilePicture := [{ size := 1024 * 1024, type := "image/png" }]
    name := "Alice Khan"
    title := "Student"
    about := "I build web apps."
    dob := "2000-01-15"
    address := "Aligarh"
    enrollNo := "GK1234"
    facultyNo := "21COSBB123"
    course := .mca
    semester := "MCA: II"
    progLangs := [{ name := "C", fluency := .Advanced }]
    skills := []
    projects := []
    achievements := ["Won hackathon"]
    email := "user@example.com"
    phone := "9876543210"
    github := "https://github.com/alice"
    linkedin := "https://linkedin.com/in/alice" }

/-- A concrete field-array wiring state for the stricter variant
manager theorems. -/
def listsW : PortfolioLists :=
  { progLangs := { entries := [(0, { name := "C", fluency := .Advanced })], nextId := 1 }
    skills := { entries := [(0, { name := "Git", fluency := .Beginner })], nextId := 1 }
    projects := { entries := [], nextId := 0 }
    achievements := { entries := [(0, "Won hackathon")], nextId := 1 }
    project := { entries := [], nextId := 0 } }

/-- The default row the stricter variant `Add Project` button appends;
note the `projectLink` default is the empty string, not absent. -/
def defaultProjectRowV2 : ProjectRowV2 :=
  { projectName := "", projectDescription := "", technologiesUsed := []
    projectLink := some "", projectDuration := "" }

/-! ## Claim theorems -/

/-- Claim C1: under the course-dependent semester rule of the stricter
variant, the document with course `MCA` and semester `MCA: V` fails
semester validation — but so does the same document with semester
`MCA: II`, because the second alternative of the regex parses as the
literal `MCA` or `M.Sc. Cyber Security: I..IV`; the only strings
accepted for an MCA student are the literal `MCA` itself.  Semester
`MCA: II`, which the claim says passes, is rejected. -/
theorem mca_semester_example :
    semPassV2 { mcaDocV2 with semester := "MCA: V" } = false
    ∧ semPassV2 mcaDocV2 = false
    ∧ mcaDocV2.semester = "MCA: II"
    ∧ semesterCheckV2 "MCA" = true
    ∧ semPassV2 { mcaDocV2 with semester := "M.Sc. Cyber Security: II" } = true := by
  refine ⟨by decide, by decide, by decide, by decide, by decide⟩

/-- Claim C4: appending a default entry to a field-array sub-list and
then removing the entry at the old length (the index of the appended
entry) returns the entry list, keys included, to exactly its prior
content and length. -/
theorem append_remove_roundtrip {α : Type} (s : FieldArrayState α) (x : α) :
    (faRemove (faAppend s x) s.entries.length).entries = s.entries
    ∧ (faRemove (faAppend s x) s.entries.length).entries.length = s.entries.length := by
  have h : (faRemove (faAppend s x) s.entries.length).entries = s.entries := by
    show (s.entries ++ [(s.nextId, x)]).eraseIdx s.entries.length = s.entries
    rw [List.eraseIdx_append_of_length_le (Nat.le_refl _)]
    simp
  exact ⟨h, by rw [h]⟩

/-- Claim C6 (failing part, stricter variant): the manager created for
the skills sub-list is bound to the name `progLangs`, so appending a
skill row leaves the `skills` sub-list unchanged and mutates
`progLangs` instead, and likewise removing a skill removes a
programming language row; the manager for projects is bound to the
non-schema name `project` and never changes `projects`. -/
theorem skills_manager_writes_progLangs :
    (appendsSkillV2 listsW { name := "", fluency := .Beginner }).skills = listsW.skills
    ∧ (appendsSkillV2 listsW { name := "", fluency := .Beginner }).progLangs ≠ listsW.progLangs
    ∧ (removeSkillV2 listsW 0).skills = listsW.skills
    ∧ (removeSkillV2 listsW 0).progLangs ≠ listsW.progLangs
    ∧ (appendProjectV2 listsW defaultProjectRowV2).projects = listsW.projects := by
  refine ⟨by decide, by decide, by decide, by decide, by decide⟩

/-- Claim C8: the login submit handler issues exactly one POST, to the
fixed local endpoint, with the email and password as body and
credentials included, whatever the network outcome; when the request
resolves it navigates to the application root; when it rejects (a
network error or a non-2xx status, on which axios throws) it surfaces
the generic blocking alert and performs no navigation. -/
theorem login_submit_contract (d : LoginOut) :
    (loginOnSubmit d .success).filter isPostAction
      = [.post "http://localhost:3000/api/v1/users/login" d.email d.password true]
    ∧ (loginOnSubmit d .failure).filter isPostAction
      = [.post "http://localhost:3000/api/v1/users/login" d.email d.password true]
    ∧ .navigate "/" ∈ loginOnSubmit d .success
    ∧ .alert "Invalid credentials or something went wrong" ∈ loginOnSubmit d .failure
    ∧ (loginOnSubmit d .failure).all (fun a => !isNavigateAction a) = true := by
  refine ⟨?_, ?_, ?_, ?_, ?_⟩ <;>
    simp [loginOnSubmit, isPostAction, isNavigateAction, List.filter]

/-- Claim C9: the profile picture schema of the stricter variant
rejects any file over 2MB with the size message and any file whose
MIME type is neither JPEG nor PNG with the type message, and accepts a
file within both constraints; in particular a 3MB JPEG draws exactly
the size error, a 1MB PNG passes, and a small GIF draws exactly the
type error. -/
theorem profile_picture_rules :
    (∀ f : FileV, checkProfilePicture [f]
      = (if f.size ≤ maxSize then [] else ["File size must be less than 2MB."])
        ++ (if fileFormat.contains f.type then []
            else ["Invalid file type. Only JPEG and PNG are allowed."]))
    ∧ checkProfilePicture [{ size := 3 * 1024 * 1024, type := "image/jpeg" }]
      = ["File size must be less than 2MB."]
    ∧ checkProfilePicture [{ size := 1024 * 1024, type := "image/png" }] = []
    ∧ checkProfilePicture [{ size := 1024, type := "image/gif" }]
      = ["Invalid file type. Only JPEG and PNG are allowed."] := by
  refine ⟨fun f => ?_, by decide, by decide, by decide⟩
  simp [checkProfilePicture]

/-- Claim C5: removing index `i` from a sub-list of length `n` (with
`i < n`) yields a list of length `n - 1`; entries below `i` keep their
places, entries formerly above `i` shift down by one, and every
surviving entry keeps its identity key and value. -/
theorem remove_shifts_reindex (α : Type) (s : FieldArrayState α) (i : Nat)
    (h : i < s.entries.length) :
    (faRemove s i).entries.length = s.entries.length - 1
    ∧ (∀ j, j < i → (faRemove s i).entries[j]? = s.entries[j]?)
    ∧ (∀ j, i ≤ j → j < s.entries.length - 1 →
        (faRemove s i).entries[j]? = s.entries[j + 1]?) := by
  refine ⟨List.length_eraseIdx_of_lt h, fun j hj => ?_, fun j hij _ => ?_⟩
  · exact List.getElem?_eraseIdx_of_lt _ _ _ hj
  · exact List.getElem?_eraseIdx_of_ge _ _ _ hij

/-- A concrete three-entry field-array state for the removal witness. -/
def faWitness : FieldArrayState String :=
  { entries := [(0, "a"), (1, "b"), (2, "c")], nextId := 3 }

/-- Witness for claim C5 at the concrete state `faWitness`, index 1. -/
theorem remove_shifts_reindex_witness :
    1 < faWitness.entries.length
    ∧ ((faRemove faWitness 1).entries.length = faWitness.entries.length - 1
      ∧ (∀ j, j < 1 → (faRemove faWitness 1).entries[j]? = faWitness.entries[j]?)
      ∧ (∀ j, 1 ≤ j → j < faWitness.entries.length - 1 →
          (faRemove faWitness 1).entries[j]? = faWitness.entries[j + 1]?)) :=
  ⟨by decide, remove_shifts_reindex String faWitness 1 (by decide)⟩

/-! ## Character class facts for the normalization claims -/

/-- Every character of a string matched by a character class sequence
lies in one of the classes. -/
theorem charsMatch_all_classes (ps : List (Char → Bool)) (l : List Char)
    (h : charsMatch ps l = true) : ∀ c ∈ l, ∃ p ∈ ps, p c = true := by
  induction ps generalizing l with
  | nil =>
    cases l with
    | nil => intro c hc; cases hc
    | cons a as => simp [charsMatch] at h
  | cons p pt ih =>
    cases l with
    | nil => simp [charsMatch] at h
    | cons a as =>
      obtain ⟨hpa, hrest⟩ := Bool.and_eq_true_iff.mp h
      intro c hc
      rcases List.mem_cons.mp hc with rfl | hmem
      · exact ⟨p, List.mem_cons_self _ _, hpa⟩
      · obtain ⟨q, hq, hqc⟩ := ih as hrest c hmem
        exact ⟨q, List.mem_cons_of_mem _ hq, hqc⟩

/-- An ASCII uppercase letter is not a lowercase letter. -/
theorem upper_not_lower {c : Char} (h : isUpperCh c = true) : isLowerCh c = false := by
  obtain ⟨-, h2⟩ := Bool.and_eq_true_iff.mp h
  have hle : c ≤ 'Z' := of_decide_eq_true h2
  have hlt : ¬ ('a' ≤ c) := not_le.mpr (lt_of_le_of_lt hle (by decide))
  simp [isLowerCh, hlt]

/-- An ASCII digit is not a lowercase letter. -/
theorem digit_not_lower {c : Char} (h : isDigitCh c = true) : isLowerCh c = false := by
  obtain ⟨-, h2⟩ := Bool.and_eq_true_iff.mp h
  have hle : c ≤ '9' := of_decide_eq_true h2
  have hlt : ¬ ('a' ≤ c) := not_le.mpr (lt_of_le_of_lt hle (by decide))
  simp [isLowerCh, hlt]

/-- A string matching the enrollment pattern contains no lowercase letter. -/
theorem enroll_no_lower {l : List Char} (h : enrollPattern l = true) :
    l.all (fun c => !isLowerCh c) = true := by
  rw [List.all_eq_true]
  intro c hc
  obtain ⟨p, hp, hpc⟩ := charsMatch_all_classes _ _ h c hc
  rcases List.mem_append.mp hp with hu | hd
  · rw [(List.eq_of_mem_replicate hu : p = isUpperCh)] at hpc
    simp [upper_not_lower hpc]
  · rw [(List.eq_of_mem_replicate hd : p = isDigitCh)] at hpc
    simp [digit_not_lower hpc]

/-- Claim C3: for every enrollment number input, the looser variant
either accepts and outputs the uppercased value, which matches the
enrollment regex and contains no lowercase letter, or fails with the
named error; faculty numbers behave the same against their regex after
uppercasing; in particular an all-lowercase input whose uppercasing
matches is accepted and normalized to uppercase. -/
theorem enroll_faculty_normalization :
    (∀ s : String,
      (parseEnrollV1 s = .ok (jsToUpper s) ∧ enrollPattern (jsToUpper s).data = true
        ∧ (jsToUpper s).data.all (fun c => !isLowerCh c) = true)
      ∨ (parseEnrollV1 s = .error "Invalid Enrollment number"
        ∧ enrollPattern (jsToUpper s).data = false))
    ∧ (∀ s : String,
      (parseFacultyV1 s = .ok (jsToUpper s) ∧ facultyPattern (jsToUpper s).data = true)
      ∨ (parseFacultyV1 s = .error "Invalid Faculty number"
        ∧ facultyPattern (jsToUpper s).data = false))
    ∧ parseEnrollV1 "gk1234" = .ok "GK1234"
    ∧ parseFacultyV1 "21cosbb123" = .ok "21COSBB123" := by
  refine ⟨fun s => ?_, fun s => ?_, by rfl, by rfl⟩
  · cases h : enrollPattern (jsToUpper s).data with
    | true => exact Or.inl ⟨by simp [parseEnrollV1, h], rfl, enroll_no_lower h⟩
    | false => exact Or.inr ⟨by simp [parseEnrollV1, h], rfl⟩
  · cases h : facultyPattern (jsToUpper s).data with
    | true => exact Or.inl ⟨by simp [parseFacultyV1, h], rfl⟩
    | false => exact Or.inr ⟨by simp [parseFacultyV1, h], rfl⟩

/-! ## The semester field of stricter variant validation depends only
on the semester string -/

/-- Unfolding equation for `checkErrors` on one more check. -/
theorem checkErrors_cons (path : FieldPath) (c : Bool × String) (t : List (Bool × String)) :
    checkErrors path (c :: t) = (if c.1 then [] else [(path, c.2)]) ++ checkErrors path t := rfl

/-- Checks of a field whose path is not `semester` contribute no
semester issue. -/
theorem filter_sem_checkErrors (path : FieldPath) (checks : List (Bool × String))
    (h : (path == ["semester"]) = false) :
    (checkErrors path checks).filter isSemesterPath = [] := by
  induction checks with
  | nil => rfl
  | cons c t ih =>
    rw [checkErrors_cons, List.filter_append, ih]
    cases hc : c.1
    · simp [isSemesterPath, h]
    · simp

/-- Checks of the `semester` field survive the semester filter unchanged. -/
theorem filter_sem_checkErrors_sem (checks : List (Bool × String)) :
    (checkErrors ["semester"] checks).filter isSemesterPath = checkErrors ["semester"] checks := by
  induction checks with
  | nil => rfl
  | cons c t ih =>
    rw [checkErrors_cons, List.filter_append, ih]
    cases hc : c.1
    · simp [isSemesterPath]
    · simp

/-- A flat map whose pieces contribute no semester issue contributes none. -/
theorem filter_sem_flatMap {β : Type} (l : List β) (f : β → List Issue)
    (h : ∀ b, (f b).filter isSemesterPath = []) :
    (l.flatMap f).filter isSemesterPath = [] := by
  induction l with
  | nil => rfl
  | cons a t ih =>
    rw [List.flatMap_cons, List.filter_append, h, ih]
    rfl

/-- Programming language rows contribute no semester issue. -/
theorem filter_sem_progLangRow (i : Nat) (r : ProgLangRow) :
    (progLangRowErrors i r).filter isSemesterPath = [] :=
  filter_sem_checkErrors _ _ rfl

/-- Stricter variant project rows contribute no semester issue. -/
theorem filter_sem_projectRowV2 (i : Nat) (r : ProjectRowV2) :
    (projectRowErrorsV2 i r).filter isSemesterPath = [] := by
  unfold projectRowErrorsV2
  rw [List.filter_append, List.filter_append, List.filter_append,
    filter_sem_checkErrors ["projects", toString i, "projectName"] _ rfl,
    filter_sem_checkErrors ["projects", toString i, "projectDescription"] _ rfl,
    filter_sem_checkErrors ["projects", toString i, "projectDuration"] _ rfl]
  cases r.projectLink with
  | none => simp
  | some u =>
    rw [filter_sem_checkErrors ["projects", toString i, "projectLink"] _ rfl]
    simp

/-- Stricter variant achievement entries contribute no semester issue. -/
theorem filter_sem_achievementV2 (i : Nat) (a : String) :
    (achievementErrorsV2 i a).filter isSemesterPath = [] :=
  filter_sem_checkErrors _ _ rfl

/-- The course field contributes no semester issue. -/
theorem filter_sem_course (c : CourseV2) :
    (courseErrorsV2 c).filter isSemesterPath = [] := by
  cases c <;> rfl

/-- Profile picture issues carry the nested profile picture path, not
the semester path. -/
theorem filter_sem_ppMap (l : List String) :
    (l.map (fun m => ((["profilePicture", "profilePicture"] : FieldPath), m))).filter
      isSemesterPath = [] := by
  induction l with
  | nil => rfl
  | cons a t ih =>
    rw [List.map_cons, List.filter_cons_of_neg (by simp [isSemesterPath])]
    exact ih

/-- The semester chunk of the validator survives the filter whole. -/
theorem filter_sem_semErrors (s : String) :
    (semesterErrorsV2 s).filter isSemesterPath = semesterErrorsV2 s :=
  filter_sem_checkErrors_sem _

/-- The semester issues of stricter variant full-document validation
are exactly the issues of the semester rule applied to the semester
string: no other field writes to the semester path and the semester
rule reads no other field. -/
theorem semesterFieldErrorsV2_eq (d : DocV2) :
    semesterFieldErrorsV2 d = semesterErrorsV2 d.semester := by
  unfold semesterFieldErrorsV2 validateV2Errors
  simp only [List.filter_append]
  rw [filter_sem_ppMap,
    filter_sem_checkErrors ["name"] _ rfl, filter_sem_checkErrors ["title"] _ rfl,
    filter_sem_checkErrors ["about"] _ rfl, filter_sem_checkErrors ["dob"] _ rfl,
    filter_sem_checkErrors ["address"] _ rfl, filter_sem_checkErrors ["enrollNo"] _ rfl,
    filter_sem_checkErrors ["facultyNo"] _ rfl,
    filter_sem_course, filter_sem_semErrors,
    filter_sem_flatMap (d.progLangs.enum) (fun p => progLangRowErrors p.1 p.2)
      (fun p => filter_sem_progLangRow p.1 p.2),
    filter_sem_flatMap d.skills (fun _ => ([] : List Issue)) (fun _ => rfl),
    filter_sem_flatMap (d.projects.enum) (fun p => projectRowErrorsV2 p.1 p.2)
      (fun p => filter_sem_projectRowV2 p.1 p.2),
    filter_sem_flatMap (d.achievements.enum) (fun p => achievementErrorsV2 p.1 p.2)
      (fun p => filter_sem_achievementV2 p.1 p.2),
    filter_sem_checkErrors ["email"] _ rfl, filter_sem_checkErrors ["phone"] _ rfl,
    filter_sem_checkErrors ["github"] _ rfl, filter_sem_checkErrors ["linkedin"] _ rfl]
  simp

/-- Every string of the semester regex language is nonempty. -/
theorem semCheck_nonempty {s : String} (h : semesterCheckV2 s = true) :
    strNonempty s = true := by
  have hm : s ∈ semesterRegexStrings := by
    unfold semesterCheckV2 at h
    exact List.elem_iff.mp h
  exact List.all_eq_true.mp (by decide : semesterRegexStrings.all strNonempty = true) s hm

/-- Claim C2 counterexample: in the stricter variant there is no
document and pair of distinct course selections under which the
semester field passes full-document validation for one course and
fails for the other — the semester rule never reads the course field. -/
theorem semester_course_dependence_cex :
    ¬ ∃ (d : DocV2) (c1 c2 : CourseV2), c1 ≠ c2
      ∧ semPassV2 { d with course := c1 } = true
      ∧ semPassV2 { d with course := c2 } = false := by
  rintro ⟨d, c1, c2, -, h1, h2⟩
  have e1 : semPassV2 { d with course := c1 } = semPassV2 { d with course := c2 } := by
    unfold semPassV2
    rw [semesterFieldErrorsV2_eq, semesterFieldErrorsV2_eq]
  rw [h1, h2] at e1
  exact Bool.noConfusion e1

/-- Claim C2 (amended): in the stricter variant, whether the semester
field passes full-document validation is an independent per-field
function of the semester string alone — changing the course field (or
any other field) never changes it, and it equals membership of the
semester string in the semester regex language. -/
theorem semester_validation_per_field :
    ∀ (d : DocV2) (c : CourseV2),
      semPassV2 { d with course := c } = semPassV2 d
      ∧ semPassV2 d = semesterCheckV2 d.semester := by
  intro d c
  constructor
  · unfold semPassV2
    rw [semesterFieldErrorsV2_eq, semesterFieldErrorsV2_eq]
  · unfold semPassV2
    rw [semesterFieldErrorsV2_eq]
    cases h : semesterCheckV2 d.semester with
    | true =>
      have hn := semCheck_nonempty h
      simp [semesterErrorsV2, checkErrors, h, hn]
    | false =>
      simp [semesterErrorsV2, checkErrors, h]

/-- Claim C7: on submit, full-document validation of the looser
variant runs every field rule and the per-row rules; on the concrete
document `baseV1` every rule passes and the caller receives the
normalized document; blanking only the `about` field blocks submission
and reports exactly the `about` error path; restoring the field makes
resubmission succeed again. -/
theorem submit_about_gating :
    validateV1 baseV1 = .ok baseV1Out
    ∧ handleSubmitV1 baseV1 = some baseV1Out
    ∧ validateV1 { baseV1 with about := "" }
      = .error [(["about"], "This field is required")]
    ∧ handleSubmitV1 { baseV1 with about := "" } = none
    ∧ handleSubmitV1 { { baseV1 with about := "" } with about := "I build web apps." }
      = some baseV1Out := by
  refine ⟨by rfl, by rfl, by rfl, by rfl, by rfl⟩

/-- Claim C10: the login field named `email` is not checked as an
email address: the input is uppercased and accepted exactly when the
result matches the enrollment pattern, so any input containing the
character `@` fails client-side validation and the submit handler
produces no action at all — in particular no network request. -/
theorem login_email_enrollment_pattern (s : String) (h : '@' ∈ s.data) :
    enrollPattern (jsToUpper s).data = false
    ∧ parseLoginEmail s = .error "Invalid Enrollment number"
    ∧ (∀ pw : String, ∀ o : NetOutcome,
        loginHandleSubmit { email := s, password := pw } o = [])
    ∧ (∀ t : String, parseLoginEmail t
        = if enrollPattern (jsToUpper t).data then .ok (jsToUpper t)
          else .error "Invalid Enrollment number") := by
  have hat : '@' ∈ (jsToUpper s).data := by
    have hmm : jsToUpperChar '@' ∈ s.data.map jsToUpperChar := List.mem_map_of_mem _ h
    rw [(rfl : jsToUpperChar '@' = '@')] at hmm
    exact hmm
  have hpat : enrollPattern (jsToUpper s).data = false := by
    cases hp : enrollPattern (jsToUpper s).data with
    | false => rfl
    | true =>
      obtain ⟨p, hmem, hpc⟩ := charsMatch_all_classes _ _ hp '@' hat
      rcases List.mem_append.mp hmem with hu | hd
      · rw [List.eq_of_mem_replicate hu] at hpc
        exact absurd hpc (by decide)
      · rw [List.eq_of_mem_replicate hd] at hpc
        exact absurd hpc (by decide)
  refine ⟨hpat, by simp [parseLoginEmail, hpat], ?_, fun t => rfl⟩
  intro pw o
  simp [loginHandleSubmit, validateLogin, validateLoginErrors, parseLoginEmail, hpat]

/-- Witness for claim C10 at the concrete input `ab@cd.com`. -/
theorem login_email_enrollment_pattern_witness :
    ('@' ∈ "ab@cd.com".data)
    ∧ (enrollPattern (jsToUpper "ab@cd.com").data = false
      ∧ parseLoginEmail "ab@cd.com" = .error "Invalid Enrollment number"
      ∧ (∀ pw : String, ∀ o : NetOutcome,
          loginHandleSubmit { email := "ab@cd.com", password := pw } o = [])
      ∧ (∀ t : String, parseLoginEmail t
          = if enrollPattern (jsToUpper t).data then .ok (jsToUpper t)
            else .error "Invalid Enrollment number")) :=
  ⟨by decide, login_email_enrollment_pattern "ab@cd.com" (by decide)⟩

end CssFrontend
